import Mathlib

/-!
Shallow embedding of the entity cross-reference and search layer of
`gns3fy` (`src/gns3fy/services.py`): per-project collections of nodes,
links, snapshots and drawings, the name/identifier resolvers, the link
matcher, and the refresh-then-resolve-then-guard-then-mutate
orchestration of link/node/snapshot/drawing creation and deletion.

The HTTP transport and the remote server are modelled as an explicit
`Server` state; the entity methods that live in `models.py` (which is
not part of the sources, only `services.py` is) are modelled from the
specification and clearly marked as such.  Python exceptions are
modelled with `Except PyError`; an exception does not roll state back,
so every stateful operation returns its final state alongside the
`Except` result.  Python `set` collections are modelled as lists in
fetched order; mutating remote calls are recorded in a trace.
-/

deriving instance DecidableEq for Except

namespace Gns3

/-- A Python exception, as surfaced by the layer under study. -/
inductive PyError
  | valueError (msg : String)
  | indexError
  | keyError
  | attributeError (msg : String)
  | transportError
deriving DecidableEq

/-- Python `str(x)` of an `Optional[str]` value (used in f-strings). -/
def optStr : Option String → String
  | some s => s
  | none => "None"

/-- One endpoint/port record: a `Port` object.  In link records the
`node_id` field is set; in a node's own port list it is `none`.  The
`name` field carries the display name (the link label text). -/
structure Port where
  name : String
  node_id : Option String
  adapter_number : Nat
  port_number : Nat
deriving DecidableEq

/-- A `Node` entity (the fields used by the layer under study). -/
structure Node where
  name : String
  node_id : Option String
  template : Option String
  template_id : Option String
  x : Int
  y : Int
  ports : List Port
deriving DecidableEq

/-- A `Link` entity: server identifier plus its `nodes` endpoint list. -/
structure Link where
  link_id : Option String
  nodes : List Port
deriving DecidableEq

/-- A `Snapshot` entity. -/
structure Snapshot where
  name : String
  snapshot_id : Option String
deriving DecidableEq

/-- A `Drawing` entity. -/
structure Drawing where
  svg : Option String
  drawing_id : Option String
deriving DecidableEq

/-- A `Template` entity. -/
structure Template where
  name : String
  template_id : Option String
deriving DecidableEq

/-- A `Project` aggregate: identifying attributes plus the four local
entity collections (Python sets, modelled as lists in fetched order). -/
structure Project where
  name : Option String
  project_id : Option String
  nodes : List Node
  links : List Link
  snapshots : List Snapshot
  drawings : List Drawing
deriving DecidableEq

/-- Modelled from the spec: the remote GNS3 server reached through the
external `HttpClient` transport.  It holds the canonical listings the
`get_*` endpoints return, the identifiers it assigns on create, the
status code of the snapshot-restore endpoint, and per-endpoint failure
flags standing for an unrecoverable transport error on that call. -/
structure Server where
  projects : List Project
  templates : List Template
  nodes : List Node
  links : List Link
  snapshots : List Snapshot
  drawings : List Drawing
  freshNodeId : String
  freshLinkId : String
  freshSnapshotId : String
  freshDrawingId : String
  restore_status : Nat
  createLinkFails : Bool
  deleteLinkFails : Bool
  createNodeFails : Bool
  deleteNodeFails : Bool
  createSnapshotFails : Bool
  deleteSnapshotFails : Bool
  createDrawingFails : Bool
  deleteDrawingFails : Bool
deriving DecidableEq

/-- A mutating remote call, recorded in the trace in issue order. -/
inductive Call
  | createLink
  | deleteLink
  | createNode
  | deleteNode
  | createSnapshot
  | deleteSnapshot
  | createDrawing
  | deleteDrawing
  | restoreSnapshot
deriving DecidableEq

/-- The full state a service call threads: the remote server, the local
`Project` aggregate, and the trace of mutating remote calls issued. -/
structure St where
  srv : Server
  proj : Project
  calls : List Call
deriving DecidableEq

/-- `get_projects`: list request for the project collection. -/
def get_projects (srv : Server) : List Project := srv.projects

/-- `get_templates`: list request for the template collection. -/
def get_templates (srv : Server) : List Template := srv.templates

/-- `get_nodes`: list request for the project's node collection. -/
def get_nodes (srv : Server) : List Node := srv.nodes

/-- `get_links`: list request for the project's link collection. -/
def get_links (srv : Server) : List Link := srv.links

/-- `get_snapshots`: list request for the project's snapshots. -/
def get_snapshots (srv : Server) : List Snapshot := srv.snapshots

/-- `get_drawings`: list request for the project's drawings. -/
def get_drawings (srv : Server) : List Drawing := srv.drawings

/-- `refresh_project(project, links, nodes, snapshots, drawings)`:
re-fetches each selected collection and replaces the local one
wholesale, in the source's order (snapshots, drawings, nodes, links). -/
def refresh_project (s : St) (links nodes snapshots drawings : Bool) : St :=
  let s := if snapshots then
    { s with proj := { s.proj with snapshots := get_snapshots s.srv } } else s
  let s := if drawings then
    { s with proj := { s.proj with drawings := get_drawings s.srv } } else s
  let s := if nodes then
    { s with proj := { s.proj with nodes := get_nodes s.srv } } else s
  if links then
    { s with proj := { s.proj with links := get_links s.srv } } else s

/-- `search_project(connector, name, project_id)`: first project whose
name (else whose identifier) equals the key; `ValueError` when neither
key is supplied; `None` becomes `Option.none` via `StopIteration`. -/
def search_project (srv : Server) (name project_id : Option String) :
    Except PyError (Option Project) :=
  match name with
  | some n => .ok ((get_projects srv).find? (fun prj => prj.name == some n))
  | none =>
    match project_id with
    | some pid =>
        .ok ((get_projects srv).find? (fun prj => prj.project_id == some pid))
    | none => .error (.valueError "Need to submit either name or project_id")

/-- `search_template(connector, name, template_id)`. -/
def search_template (srv : Server) (name template_id : Option String) :
    Except PyError (Option Template) :=
  match name with
  | some n => .ok ((get_templates srv).find? (fun tplt => tplt.name == n))
  | none =>
    match template_id with
    | some tid =>
        .ok ((get_templates srv).find? (fun tp => tp.template_id == some tid))
    | none => .error (.valueError "Need to submit either name or template_id")

/-- `search_node(project, name, node_id)`: refreshes the project first
(`nodes=True`, the other selectors keep their `True` defaults), then
searches `project.nodes` by name, or a fresh `get_nodes` listing by
identifier. -/
def search_node (s : St) (name node_id : Option String) :
    Except PyError (Option Node) × St :=
  let s := refresh_project s true true true true
  match name with
  | some n => (.ok (s.proj.nodes.find? (fun nd => nd.name == n)), s)
  | none =>
    match node_id with
    | some nid =>
        (.ok ((get_nodes s.srv).find? (fun nd => nd.node_id == some nid)), s)
    | none => (.error (.valueError "Need to submit either name or node_id"), s)

/-- `search_snapshot(project, name, snapshot_id)`: refreshes the project
first; note the source tests the identifier for truthiness
(`elif snapshot_id:`), so an empty identifier falls through to the
`ValueError` branch. -/
def search_snapshot (s : St) (name snapshot_id : Option String) :
    Except PyError (Option Snapshot) × St :=
  let s := refresh_project s true true true true
  match name with
  | some n => (.ok ((get_snapshots s.srv).find? (fun snap => snap.name == n)), s)
  | none =>
    match snapshot_id with
    | some sid =>
        if sid == "" then
          (.error (.valueError "Need to submit either name or snapshot_id"), s)
        else
          (.ok ((get_snapshots s.srv).find?
            (fun snap => snap.snapshot_id == some sid)), s)
    | none =>
        (.error (.valueError "Need to submit either name or snapshot_id"), s)

/-- `search_drawing(project, svg, drawing_id)`: refreshes the project
first, then searches the fresh drawing listing by svg string, else by
identifier. -/
def search_drawing (s : St) (svg drawing_id : Option String) :
    Except PyError (Option Drawing) × St :=
  let s := refresh_project s true true true true
  match svg with
  | some sv => (.ok ((get_drawings s.srv).find? (fun draw => draw.svg == some sv)), s)
  | none =>
    match drawing_id with
    | some did =>
        (.ok ((get_drawings s.srv).find?
          (fun draw => draw.drawing_id == some did)), s)
    | none =>
        (.error (.valueError "Need to submit either svg string or drawing_id"), s)

/-- Modelled from the spec: `Node.get()` (in `models.py`, not under the
sources) refreshes the node's attributes — in particular its `ports`
list — from the server; a vanished node surfaces a transport error. -/
def node_get (srv : Server) (node : Node) : Except PyError Node :=
  match srv.nodes.find? (fun n => n.node_id == node.node_id) with
  | some fresh => .ok fresh
  | none => .error .transportError

/-- `search_port(node, name)`: refreshes the node, then returns the
first of its ports with the given display name. -/
def search_port (srv : Server) (node : Node) (name : String) :
    Except PyError (Option Port) :=
  match node_get srv node with
  | .error e => .error e
  | .ok fresh => .ok (fresh.ports.find? (fun p => p.name == name))

/-- `_link_nodes_and_ports(project, node_a, port_a, node_b, port_b)`:
resolves both node names and both port names, raising `ValueError` at
the first absent one. -/
def _link_nodes_and_ports (s : St) (node_a port_a node_b port_b : String) :
    Except PyError (Node × Port × Node × Port) × St :=
  match search_node s (some node_a) none with
  | (.error e, s) => (.error e, s)
  | (.ok none, s) => (.error (.valueError s!"node_a: {node_a} not found"), s)
  | (.ok (some _node_a), s) =>
    match search_port s.srv _node_a port_a with
    | .error e => (.error e, s)
    | .ok none => (.error (.valueError s!"port_a: {port_a} not found"), s)
    | .ok (some _port_a) =>
      match search_node s (some node_b) none with
      | (.error e, s) => (.error e, s)
      | (.ok none, s) => (.error (.valueError s!"node_b: {node_b} not found"), s)
      | (.ok (some _node_b), s) =>
        match search_port s.srv _node_b port_b with
        | .error e => (.error e, s)
        | .ok none => (.error (.valueError s!"port_b: {port_b} not found"), s)
        | .ok (some _port_b) => (.ok (_node_a, _port_a, _node_b, _port_b), s)

/-- The comparison `_search_link` applies to one stored endpoint `e`
against a resolved endpoint `(n, p)`: node identifier, adapter number
and port number must all match (display names are ignored). -/
def endpointMatches (e : Port) (n : Node) (p : Port) : Bool :=
  e.node_id == n.node_id
    && e.adapter_number == p.adapter_number
    && e.port_number == p.port_number

/-- The per-link condition of `_search_link`: the link's first two
endpoint records equal the resolved pair in forward (A,B) or reverse
(B,A) orientation.  A link with an empty `nodes` list is skipped by the
`continue` in the source, hence matches nothing. -/
def linkMatches (l : Link) (na : Node) (pa : Port) (nb : Node) (pb : Port) :
    Bool :=
  match l.nodes with
  | e0 :: e1 :: _ =>
    (endpointMatches e0 na pa && endpointMatches e1 nb pb)
      || (endpointMatches e1 na pa && endpointMatches e0 nb pb)
  | _ => false

/-- The accumulation loop of `_search_link`: collects matching links in
iteration order.  A link whose `nodes` list has exactly one element
makes the source index `_l.nodes[1]` out of bounds inside the loop
(outside the `try` block), raising an uncaught `IndexError`. -/
def _search_link_matches (links : List Link)
    (na : Node) (pa : Port) (nb : Node) (pb : Port) :
    Except PyError (List Link) :=
  match links with
  | [] => .ok []
  | l :: rest =>
    match l.nodes with
    | [] => _search_link_matches rest na pa nb pb
    | [_] => .error .indexError
    | _ :: _ :: _ =>
      match _search_link_matches rest na pa nb pb with
      | .error e => .error e
      | .ok ms => .ok (if linkMatches l na pa nb pb then l :: ms else ms)

/-- `_search_link(project, node_a, port_a, node_b, port_b)`: the first
accumulated match, or `None` (the `IndexError` of `_matches[0]` on an
empty list is caught and turned into `None`). -/
def _search_link (p : Project) (na : Node) (pa : Port) (nb : Node) (pb : Port) :
    Except PyError (Option Link) :=
  match _search_link_matches p.links na pa nb pb with
  | .error e => .error e
  | .ok ms => .ok ms.head?

/-- `search_link(project, node_a, port_a, node_b, port_b)`: refresh
(`links=True`, other selectors keep their `True` defaults), resolve the
endpoints, then run the matcher. -/
def search_link (s : St) (node_a port_a node_b port_b : String) :
    Except PyError (Option Link) × St :=
  let s := refresh_project s true true true true
  match _link_nodes_and_ports s node_a port_a node_b port_b with
  | (.error e, s) => (.error e, s)
  | (.ok (na, pa, nb, pb), s) => (_search_link s.proj na pa nb pb, s)

/-- Modelled from the spec: `Link.create()` (in `models.py`, not under
the sources) issues the remote create; on success the server assigns
the link its identifier and adds it to the canonical listing; a
transport failure surfaces unchanged and nothing is recorded. -/
def link_create (s : St) (link : Link) : Except PyError Link × St :=
  if s.srv.createLinkFails then (.error .transportError, s)
  else
    let created := { link with link_id := some s.srv.freshLinkId }
    (.ok created,
      { s with
        srv := { s.srv with links := s.srv.links ++ [created] },
        calls := s.calls ++ [.createLink] })

/-- Modelled from the spec: `Link.delete()` issues the remote delete,
removing the link from the server's canonical listing. -/
def link_delete (s : St) (link : Link) : Except PyError Unit × St :=
  if s.srv.deleteLinkFails then (.error .transportError, s)
  else
    (.ok (),
      { s with
        srv := { s.srv with
          links := s.srv.links.filter (fun l => !(l.link_id == link.link_id)) },
        calls := s.calls ++ [.deleteLink] })

/-- `create_link(project, node_a, port_a, node_b, port_b)`: full
refresh, endpoint resolution, the pre-create guard (`ValueError`
carrying the conflicting link's identifier when the matcher finds an
equivalent link), then the remote create and the local `links.add`. -/
def create_link (s : St) (node_a port_a node_b port_b : String) :
    Except PyError Link × St :=
  let s := refresh_project s true true true true
  match _link_nodes_and_ports s node_a port_a node_b port_b with
  | (.error e, s) => (.error e, s)
  | (.ok (na, pa, nb, pb), s) =>
    match _search_link s.proj na pa nb pb with
    | .error e => (.error e, s)
    | .ok (some slink) =>
        (.error (.valueError
          s!"At least one port is used, ID: {optStr slink.link_id}"), s)
    | .ok none =>
      let link : Link :=
        { link_id := none,
          nodes :=
            [ { name := pa.name, node_id := na.node_id,
                adapter_number := pa.adapter_number,
                port_number := pa.port_number },
              { name := pb.name, node_id := nb.node_id,
                adapter_number := pb.adapter_number,
                port_number := pb.port_number } ] }
      match link_create s link with
      | (.error e, s) => (.error e, s)
      | (.ok created, s) =>
          (.ok created,
            { s with proj := { s.proj with links := created :: s.proj.links } })

/-- `delete_link(project, node_a, port_a, node_b, port_b)`: idempotent
search; absence is a silent no-op; on a find, the remote delete then
the local `links.remove` (a Python `set.remove` of an absent member
would raise `KeyError`). -/
def delete_link (s : St) (node_a port_a node_b port_b : String) :
    Except PyError Unit × St :=
  match search_link s node_a port_a node_b port_b with
  | (.error e, s) => (.error e, s)
  | (.ok none, s) => (.ok (), s)
  | (.ok (some link), s) =>
    match link_delete s link with
    | (.error e, s) => (.error e, s)
    | (.ok _, s) =>
        if s.proj.links.contains link then
          (.ok (), { s with proj := { s.proj with links := s.proj.links.erase link } })
        else (.error .keyError, s)

/-- Modelled from the spec: `Node.create()` issues the remote create;
the server assigns the node its identifier and adds it to the
canonical listing. -/
def node_create (s : St) (node : Node) : Except PyError Node × St :=
  if s.srv.createNodeFails then (.error .transportError, s)
  else
    let created := { node with node_id := some s.srv.freshNodeId }
    (.ok created,
      { s with
        srv := { s.srv with nodes := s.srv.nodes ++ [created] },
        calls := s.calls ++ [.createNode] })

/-- Modelled from the spec: `Node.delete()` issues the remote delete. -/
def node_delete (s : St) (node : Node) : Except PyError Unit × St :=
  if s.srv.deleteNodeFails then (.error .transportError, s)
  else
    (.ok (),
      { s with
        srv := { s.srv with
          nodes := s.srv.nodes.filter (fun n => !(n.node_id == node.node_id)) },
        calls := s.calls ++ [.deleteNode] })

/-- `create_node(project, name, template_name, x, y)`: duplicate-name
guard, template resolution, remote create, local `nodes.add` of the
very object the create returned. -/
def create_node (s : St) (name template_name : String) (x y : Int) :
    Except PyError Node × St :=
  match search_node s (some name) none with
  | (.error e, s) => (.error e, s)
  | (.ok (some _), s) =>
      (.error (.valueError s!"Node with same name already exists: {name}"), s)
  | (.ok none, s) =>
    match search_template s.srv (some template_name) none with
    | .error e => (.error e, s)
    | .ok none => (.error (.valueError s!"Template not found: {template_name}"), s)
    | .ok (some tpl) =>
      let node : Node :=
        { name := name, node_id := none, template := some tpl.name,
          template_id := tpl.template_id, x := x, y := y, ports := [] }
      match node_create s node with
      | (.error e, s) => (.error e, s)
      | (.ok created, s) =>
          (.ok created,
            { s with proj := { s.proj with nodes := created :: s.proj.nodes } })

/-- `delete_node(project, name, node_id)`: `ValueError` on an unmatched
key, else the remote delete then the local `nodes.remove`. -/
def delete_node (s : St) (name node_id : Option String) :
    Except PyError Unit × St :=
  match search_node s name node_id with
  | (.error e, s) => (.error e, s)
  | (.ok none, s) => (.error (.valueError "Node not found"), s)
  | (.ok (some nd), s) =>
    match node_delete s nd with
    | (.error e, s) => (.error e, s)
    | (.ok _, s) =>
        if s.proj.nodes.contains nd then
          (.ok (), { s with proj := { s.proj with nodes := s.proj.nodes.erase nd } })
        else (.error .keyError, s)

/-- Modelled from the spec: `Snapshot.create()` issues the remote
create; the server assigns the identifier and stores the snapshot. -/
def snapshot_create (s : St) (snap : Snapshot) : Except PyError Snapshot × St :=
  if s.srv.createSnapshotFails then (.error .transportError, s)
  else
    let created := { snap with snapshot_id := some s.srv.freshSnapshotId }
    (.ok created,
      { s with
        srv := { s.srv with snapshots := s.srv.snapshots ++ [created] },
        calls := s.calls ++ [.createSnapshot] })

/-- Modelled from the spec: `Snapshot.delete()` issues the remote
delete. -/
def snapshot_delete (s : St) (snap : Snapshot) : Except PyError Unit × St :=
  if s.srv.deleteSnapshotFails then (.error .transportError, s)
  else
    (.ok (),
      { s with
        srv := { s.srv with
          snapshots := s.srv.snapshots.filter
            (fun sn => !(sn.snapshot_id == snap.snapshot_id)) },
        calls := s.calls ++ [.deleteSnapshot] })

/-- `create_snapshot(project, name)`. -/
def create_snapshot (s : St) (name : String) : Except PyError Snapshot × St :=
  match search_snapshot s (some name) none with
  | (.error e, s) => (.error e, s)
  | (.ok (some ssnap), s) =>
      (.error (.valueError
        s!"Snapshot with same name already exists: {ssnap.name}"), s)
  | (.ok none, s) =>
    let snap : Snapshot := { name := name, snapshot_id := none }
    match snapshot_create s snap with
    | (.error e, s) => (.error e, s)
    | (.ok created, s) =>
        (.ok created,
          { s with proj := { s.proj with snapshots := created :: s.proj.snapshots } })

/-- `delete_snapshot(project, name, snapshot_id)`. -/
def delete_snapshot (s : St) (name snapshot_id : Option String) :
    Except PyError Unit × St :=
  match search_snapshot s name snapshot_id with
  | (.error e, s) => (.error e, s)
  | (.ok none, s) => (.error (.valueError "Snapshot not found"), s)
  | (.ok (some snap), s) =>
    match snapshot_delete s snap with
    | (.error e, s) => (.error e, s)
    | (.ok _, s) =>
        if s.proj.snapshots.contains snap then
          (.ok (),
            { s with proj := { s.proj with snapshots := s.proj.snapshots.erase snap } })
        else (.error .keyError, s)

/-- `restore_snapshot(project, name, snapshot_id)`: resolves the key
and then — without checking the result for absence — reads
`_snapshot.snapshot_id` to build the restore URL, so an unmatched key
raises `AttributeError` before the remote post; on a match the post is
issued and the result is whether the status code is 201. -/
def restore_snapshot (s : St) (name snapshot_id : Option String) :
    Except PyError Bool × St :=
  match search_snapshot s name snapshot_id with
  | (.error e, s) => (.error e, s)
  | (.ok none, s) =>
      (.error (.attributeError "NoneType object has no attribute snapshot_id"), s)
  | (.ok (some _), s) =>
    let s := { s with calls := s.calls ++ [.restoreSnapshot] }
    if s.srv.restore_status == 201 then (.ok true, s) else (.ok false, s)

/-- Modelled from the spec: `Drawing.create()` issues the remote
create; the server assigns the identifier and stores the drawing. -/
def drawing_create (s : St) (draw : Drawing) : Except PyError Drawing × St :=
  if s.srv.createDrawingFails then (.error .transportError, s)
  else
    let created := { draw with drawing_id := some s.srv.freshDrawingId }
    (.ok created,
      { s with
        srv := { s.srv with drawings := s.srv.drawings ++ [created] },
        calls := s.calls ++ [.createDrawing] })

/-- Modelled from the spec: `Drawing.delete()` issues the remote
delete. -/
def drawing_delete (s : St) (draw : Drawing) : Except PyError Unit × St :=
  if s.srv.deleteDrawingFails then (.error .transportError, s)
  else
    (.ok (),
      { s with
        srv := { s.srv with
          drawings := s.srv.drawings.filter
            (fun d => !(d.drawing_id == draw.drawing_id)) },
        calls := s.calls ++ [.deleteDrawing] })

/-- `create_drawing(project, svg)`. -/
def create_drawing (s : St) (svg : String) : Except PyError Drawing × St :=
  match search_drawing s (some svg) none with
  | (.error e, s) => (.error e, s)
  | (.ok (some sdraw), s) =>
      (.error (.valueError
        s!"Drawing with same svg already exists: {optStr sdraw.drawing_id}"), s)
  | (.ok none, s) =>
    let draw : Drawing := { svg := some svg, drawing_id := none }
    match drawing_create s draw with
    | (.error e, s) => (.error e, s)
    | (.ok created, s) =>
        (.ok created,
          { s with proj := { s.proj with drawings := created :: s.proj.drawings } })

/-- `delete_drawing(project, svg, drawing_id)` (the source's not-found
message reads "Snapshot not found", kept verbatim). -/
def delete_drawing (s : St) (svg drawing_id : Option String) :
    Except PyError Unit × St :=
  match search_drawing s svg drawing_id with
  | (.error e, s) => (.error e, s)
  | (.ok none, s) => (.error (.valueError "Snapshot not found"), s)
  | (.ok (some draw), s) =>
    match drawing_delete s draw with
    | (.error e, s) => (.error e, s)
    | (.ok _, s) =>
        if s.proj.drawings.contains draw then
          (.ok (),
            { s with proj := { s.proj with drawings := s.proj.drawings.erase draw } })
        else (.error .keyError, s)

/-! ### Concrete states for witnesses and counterexamples -/

/-- A server with no failure injections and fresh identifiers set. -/
def baseServer : Server :=
  { projects := [], templates := [], nodes := [], links := [],
    snapshots := [], drawings := [],
    freshNodeId := "n9", freshLinkId := "l9",
    freshSnapshotId := "s9", freshDrawingId := "d9",
    restore_status := 201,
    createLinkFails := false, deleteLinkFails := false,
    createNodeFails := false, deleteNodeFails := false,
    createSnapshotFails := false, deleteSnapshotFails := false,
    createDrawingFails := false, deleteDrawingFails := false }

/-- Port `Eth0`, adapter 0, port 0 (as listed on a node). -/
def eth0 : Port := { name := "Eth0", node_id := none, adapter_number := 0, port_number := 0 }

/-- Port `Eth1`, adapter 0, port 1 (as listed on a node). -/
def eth1 : Port := { name := "Eth1", node_id := none, adapter_number := 0, port_number := 1 }

/-- Node `R1` with ports `Eth0`, `Eth1`. -/
def nodeR1 : Node :=
  { name := "R1", node_id := some "n1", template := none, template_id := none,
    x := 0, y := 0, ports := [eth0, eth1] }

/-- Node `R2` with port `Eth0`. -/
def nodeR2 : Node :=
  { name := "R2", node_id := some "n2", template := none, template_id := none,
    x := 0, y := 0, ports := [eth0] }

/-- Node `R3` with port `Eth0`. -/
def nodeR3 : Node :=
  { name := "R3", node_id := some "n3", template := none, template_id := none,
    x := 0, y := 0, ports := [eth0] }

/-- An empty local project aggregate. -/
def demoProj : Project :=
  { name := some "lab1", project_id := some "p1",
    nodes := [], links := [], snapshots := [], drawings := [] }

/-- Server for the happy scenario: nodes `R1`, `R2`, a template, one
snapshot and one drawing, no links yet. -/
def demoSrv : Server :=
  { baseServer with
    nodes := [nodeR1, nodeR2],
    templates := [{ name := "t1", template_id := some "t1id" }],
    snapshots := [{ name := "snap1", snapshot_id := some "s1" }],
    drawings := [{ svg := some "<svg a>", drawing_id := some "d1" }] }

/-- Initial state for the happy scenario. -/
def demoSt : St := { srv := demoSrv, proj := demoProj, calls := [] }

/-- Existing link occupying `R1 Eth0` on one side and `R3 Eth0` on the
other (endpoint records as stored in a link's `nodes` list). -/
def linkR1R3 : Link :=
  { link_id := some "l13",
    nodes :=
      [ { name := "Eth0", node_id := some "n1", adapter_number := 0, port_number := 0 },
        { name := "Eth0", node_id := some "n3", adapter_number := 0, port_number := 0 } ] }

/-- Server with nodes `R1`, `R2`, `R3` and the existing `R1`–`R3` link. -/
def c1Srv : Server := { baseServer with nodes := [nodeR1, nodeR2, nodeR3], links := [linkR1R3] }

/-- State in which endpoint `R1 Eth0` is occupied by the `R1`–`R3`
link while the proposed peer `R2 Eth0` is free. -/
def c1St : St := { srv := c1Srv, proj := demoProj, calls := [] }

/-- Existing link connecting `R1 Eth0` and `R2 Eth0`. -/
def linkR1R2 : Link :=
  { link_id := some "lX",
    nodes :=
      [ { name := "Eth0", node_id := some "n1", adapter_number := 0, port_number := 0 },
        { name := "Eth0", node_id := some "n2", adapter_number := 0, port_number := 0 } ] }

/-- Server that already holds the `R1 Eth0`–`R2 Eth0` link. -/
def c5Srv : Server := { baseServer with nodes := [nodeR1, nodeR2], links := [linkR1R2] }

/-- Stale state: the local link collection is empty although the server
already holds the conflicting link. -/
def c5St : St := { srv := c5Srv, proj := demoProj, calls := [] }

/-- The state refreshed at the start of a mutation on `c5St`. -/
def c5Ref : St := refresh_project c5St true true true true

/-- The state after the first, successful `create_link` of the
reversed-order scenario. -/
def c2St : St := (create_link demoSt "R1" "Eth0" "R2" "Eth0").2

/-- The link the first `create_link` of the scenario returns. -/
def c2Link : Link :=
  { link_id := some "l9",
    nodes :=
      [ { name := "Eth0", node_id := some "n1", adapter_number := 0, port_number := 0 },
        { name := "Eth0", node_id := some "n2", adapter_number := 0, port_number := 0 } ] }

/-- The refreshed state the reversed `create_link` fails in. -/
def c2Ref : St := refresh_project c2St true true true true

/-- The state refreshed at the start of a mutation on `demoSt`. -/
def demoRef : St := refresh_project demoSt true true true true

/-- The state refreshed at the start of a mutation on `c1St`. -/
def c1Ref : St := refresh_project c1St true true true true

/-- The link the `create_link` call of the occupied-endpoint run
creates and returns. -/
def c1CreatedLink : Link :=
  { link_id := some "l9",
    nodes :=
      [ { name := "Eth0", node_id := some "n1", adapter_number := 0, port_number := 0 },
        { name := "Eth0", node_id := some "n2", adapter_number := 0, port_number := 0 } ] }

/-- A project named `other`. -/
def projOther : Project :=
  { name := some "other", project_id := some "p0",
    nodes := [], links := [], snapshots := [], drawings := [] }

/-- First of two projects sharing the name `lab`. -/
def projLab1 : Project :=
  { name := some "lab", project_id := some "pb1",
    nodes := [], links := [], snapshots := [], drawings := [] }

/-- Second of two projects sharing the name `lab`. -/
def projLab2 : Project :=
  { name := some "lab", project_id := some "pb2",
    nodes := [], links := [], snapshots := [], drawings := [] }

/-- First of two templates sharing the name `tt`. -/
def tplTT1 : Template := { name := "tt", template_id := some "t1" }

/-- First of two nodes sharing the name `nn`. -/
def nodeNN1 : Node :=
  { name := "nn", node_id := some "nn1", template := none, template_id := none,
    x := 0, y := 0, ports := [] }

/-- Second of two nodes sharing the name `nn`. -/
def nodeNN2 : Node :=
  { name := "nn", node_id := some "nn2", template := none, template_id := none,
    x := 0, y := 0, ports := [] }

/-- First of two snapshots sharing the name `ss`. -/
def snapSS1 : Snapshot := { name := "ss", snapshot_id := some "s1" }

/-- First of two drawings sharing the svg string `dd`. -/
def drawDD1 : Drawing := { svg := some "dd", drawing_id := some "d1" }

/-- Server whose every collection holds duplicate names after a
non-matching first element. -/
def dupSrv : Server :=
  { baseServer with
    projects := [projOther, projLab1, projLab2],
    templates := [{ name := "t0", template_id := some "t0" }, tplTT1,
      { name := "tt", template_id := some "t2" }],
    nodes := [nodeR1, nodeNN1, nodeNN2],
    snapshots := [{ name := "s0", snapshot_id := some "s0" }, snapSS1,
      { name := "ss", snapshot_id := some "s2" }],
    drawings := [{ svg := some "d0", drawing_id := some "d0" }, drawDD1,
      { svg := some "dd", drawing_id := some "d2" }] }

/-- State built on the duplicate-name server. -/
def dupSt : St := { srv := dupSrv, proj := demoProj, calls := [] }

/-- The node `create_node` creates in the witness run. -/
def c8Node : Node :=
  { name := "R9", node_id := some "n9", template := some "t1",
    template_id := some "t1id", x := 0, y := 0, ports := [] }

/-- The state after the witness `create_node` run. -/
def c8CreateSt : St := (create_node demoSt "R9" "t1" 0 0).2

/-- The state after the witness `delete_node` run. -/
def c8DeleteSt : St := (delete_node demoSt (some "R2") none).2

/-! ### State lemmas -/

/-- A full refresh replaces the four collections with the server
listings and changes nothing else. -/
theorem refresh_true_eq (s : St) :
    refresh_project s true true true true =
      { s with proj := { s.proj with
          snapshots := get_snapshots s.srv,
          drawings := get_drawings s.srv,
          nodes := get_nodes s.srv,
          links := get_links s.srv } } := rfl

/-- Refreshing twice in a row is the same as refreshing once. -/
theorem refresh_idem (s : St) :
    refresh_project (refresh_project s true true true true) true true true true =
      refresh_project s true true true true := rfl

/-- `search_node` leaves the state exactly refreshed. -/
theorem search_node_state (s : St) (name node_id : Option String) :
    (search_node s name node_id).2 = refresh_project s true true true true := by
  cases name <;> cases node_id <;> rfl

/-- `search_snapshot` leaves the state exactly refreshed. -/
theorem search_snapshot_state (s : St) (name snapshot_id : Option String) :
    (search_snapshot s name snapshot_id).2 = refresh_project s true true true true := by
  cases name with
  | some n => rfl
  | none =>
    cases snapshot_id with
    | none => rfl
    | some sid =>
      simp only [search_snapshot]
      split <;> rfl

/-- `search_drawing` leaves the state exactly refreshed. -/
theorem search_drawing_state (s : St) (svg drawing_id : Option String) :
    (search_drawing s svg drawing_id).2 = refresh_project s true true true true := by
  cases svg <;> cases drawing_id <;> rfl

/-- `_link_nodes_and_ports` leaves the state exactly refreshed,
whatever it returns. -/
theorem lnp_state (s : St) (a pa b pb : String) :
    (_link_nodes_and_ports s a pa b pb).2 =
      refresh_project s true true true true := by
  have h1 := search_node_state s (some a) none
  unfold _link_nodes_and_ports
  rcases hq : search_node s (some a) none with ⟨r1, s1⟩
  rw [hq] at h1
  subst h1
  cases r1 with
  | error e => rfl
  | ok o =>
    cases o with
    | none => rfl
    | some nda =>
      cases hp : search_port (refresh_project s true true true true).srv nda pa with
      | error e => simp [hp]
      | ok op =>
        cases op with
        | none => simp [hp]
        | some prta =>
          have h2 := search_node_state (refresh_project s true true true true) (some b) none
          rw [refresh_idem] at h2
          rcases hq2 : search_node (refresh_project s true true true true) (some b) none with ⟨r2, s2⟩
          rw [hq2] at h2
          subst h2
          cases r2 with
          | error e => simp [hp, hq2]
          | ok o2 =>
            cases o2 with
            | none => simp [hp, hq2]
            | some ndb =>
              cases hp2 : search_port (refresh_project s true true true true).srv ndb pb with
              | error e => simp [hp, hq2, hp2]
              | ok op2 => cases op2 <;> simp [hp, hq2, hp2]

/-- `search_link` leaves the state exactly refreshed. -/
theorem search_link_state (s : St) (a pa b pb : String) :
    (search_link s a pa b pb).2 = refresh_project s true true true true := by
  have h1 := lnp_state (refresh_project s true true true true) a pa b pb
  rw [refresh_idem] at h1
  rcases hq : _link_nodes_and_ports (refresh_project s true true true true) a pa b pb with ⟨r, s1⟩
  rw [hq] at h1
  subst h1
  simp only [search_link]
  rw [hq]
  cases r with
  | error e => rfl
  | ok q => rcases q with ⟨na, pa', nb, pb'⟩; rfl

/-- `link_create` never touches the local project aggregate. -/
theorem link_create_proj (s : St) (l : Link) : (link_create s l).2.proj = s.proj := by
  unfold link_create; split <;> rfl

/-- `link_delete` never touches the local project aggregate. -/
theorem link_delete_proj (s : St) (l : Link) : (link_delete s l).2.proj = s.proj := by
  unfold link_delete; split <;> rfl

/-- `node_create` never touches the local project aggregate. -/
theorem node_create_proj (s : St) (n : Node) : (node_create s n).2.proj = s.proj := by
  unfold node_create; split <;> rfl

/-- `node_delete` never touches the local project aggregate. -/
theorem node_delete_proj (s : St) (n : Node) : (node_delete s n).2.proj = s.proj := by
  unfold node_delete; split <;> rfl

/-- `snapshot_create` never touches the local project aggregate. -/
theorem snapshot_create_proj (s : St) (x : Snapshot) :
    (snapshot_create s x).2.proj = s.proj := by
  unfold snapshot_create; split <;> rfl

/-- `snapshot_delete` never touches the local project aggregate. -/
theorem snapshot_delete_proj (s : St) (x : Snapshot) :
    (snapshot_delete s x).2.proj = s.proj := by
  unfold snapshot_delete; split <;> rfl

/-- `drawing_create` never touches the local project aggregate. -/
theorem drawing_create_proj (s : St) (x : Drawing) :
    (drawing_create s x).2.proj = s.proj := by
  unfold drawing_create; split <;> rfl

/-- `drawing_delete` never touches the local project aggregate. -/
theorem drawing_delete_proj (s : St) (x : Drawing) :
    (drawing_delete s x).2.proj = s.proj := by
  unfold drawing_delete; split <;> rfl

/-! ### Link matcher lemmas -/

/-- The per-link matching condition is symmetric in its two resolved
endpoints. -/
theorem linkMatches_symm (l : Link) (na : Node) (pa : Port) (nb : Node) (pb : Port) :
    linkMatches l na pa nb pb = linkMatches l nb pb na pa := by
  unfold linkMatches
  rcases l.nodes with _ | ⟨e0, _ | ⟨e1, es⟩⟩
  · rfl
  · rfl
  · show (endpointMatches e0 na pa && endpointMatches e1 nb pb
        || endpointMatches e1 na pa && endpointMatches e0 nb pb)
      = (endpointMatches e0 nb pb && endpointMatches e1 na pa
        || endpointMatches e1 nb pb && endpointMatches e0 na pa)
    rw [Bool.or_comm,
      Bool.and_comm (endpointMatches e1 na pa) (endpointMatches e0 nb pb),
      Bool.and_comm (endpointMatches e0 na pa) (endpointMatches e1 nb pb)]

/-- The accumulation loop of `_search_link` is symmetric in the two
resolved endpoints, `IndexError` behaviour included. -/
theorem _search_link_matches_symm (links : List Link) (na : Node) (pa : Port)
    (nb : Node) (pb : Port) :
    _search_link_matches links na pa nb pb = _search_link_matches links nb pb na pa := by
  induction links with
  | nil => rfl
  | cons l rest ih =>
    simp only [_search_link_matches]
    rcases hn : l.nodes with _ | ⟨e0, _ | ⟨e1, es⟩⟩
    · exact ih
    · rfl
    · rw [ih, linkMatches_symm]

/-- On link collections whose links all carry their two endpoint
records (no out-of-bounds `IndexError`), the loop collects exactly the
matching links, in order. -/
theorem _search_link_matches_eq_filter (links : List Link) (na : Node) (pa : Port)
    (nb : Node) (pb : Port) (h : ∀ l ∈ links, l.nodes.length ≠ 1) :
    _search_link_matches links na pa nb pb =
      .ok (links.filter (fun l => linkMatches l na pa nb pb)) := by
  induction links with
  | nil => rfl
  | cons l rest ih =>
    have hl : l.nodes.length ≠ 1 := h l (List.mem_cons_self l rest)
    have hr : ∀ x ∈ rest, x.nodes.length ≠ 1 :=
      fun x hx => h x (List.mem_cons_of_mem l hx)
    rw [List.filter_cons]
    simp only [_search_link_matches]
    rcases hn : l.nodes with _ | ⟨e0, _ | ⟨e1, es⟩⟩
    · have hm : linkMatches l na pa nb pb = false := by
        unfold linkMatches; rw [hn]
      rw [ih hr, hm]
      simp
    · exact absurd (by rw [hn]; rfl) hl
    · rw [ih hr]

/-- `_search_link` on a well-formed collection returns the first
matching link (or absence). -/
theorem _search_link_eq_filter_head (p : Project) (na : Node) (pa : Port)
    (nb : Node) (pb : Port) (h : ∀ l ∈ p.links, l.nodes.length ≠ 1) :
    _search_link p na pa nb pb =
      .ok ((p.links.filter (fun l => linkMatches l na pa nb pb)).head?) := by
  unfold _search_link
  rw [_search_link_matches_eq_filter p.links na pa nb pb h]

/-- The state `_link_nodes_and_ports` finishes in (after the initial
refresh of `create_link`/`search_link`) is the once-refreshed state. -/
theorem lnp_final (s s₁ : St) (a pa b pb : String)
    (r : Except PyError (Node × Port × Node × Port))
    (hres : _link_nodes_and_ports (refresh_project s true true true true) a pa b pb = (r, s₁)) :
    s₁ = refresh_project s true true true true := by
  have h0 := lnp_state (refresh_project s true true true true) a pa b pb
  rw [refresh_idem] at h0
  rw [hres] at h0
  exact h0

/-- When the matcher finds an equivalent link, `create_link` stops with
the occupied-port `ValueError` naming that link, in the refreshed
state. -/
theorem create_link_conflict_eq (s s₁ : St) (node_a port_a node_b port_b : String)
    (na : Node) (pa : Port) (nb : Node) (pb : Port) (l : Link)
    (hres : _link_nodes_and_ports (refresh_project s true true true true)
      node_a port_a node_b port_b = (.ok (na, pa, nb, pb), s₁))
    (hfound : _search_link s₁.proj na pa nb pb = .ok (some l)) :
    create_link s node_a port_a node_b port_b =
      (.error (.valueError s!"At least one port is used, ID: {optStr l.link_id}"), s₁) := by
  simp only [create_link, hres, hfound]

/-! ### Claim theorems -/

/-- C3: link matching is symmetric in its two endpoint arguments: for
every link collection and every pair of resolved endpoint descriptors,
`_search_link` returns the same result — the same found link, absence,
or the same error — whether queried with (A, B) or with (B, A). -/
theorem search_link_symmetric (p : Project) (na : Node) (pa : Port) (nb : Node) (pb : Port) :
    _search_link p na pa nb pb = _search_link p nb pb na pa := by
  unfold _search_link
  rw [_search_link_matches_symm]

/-- C6: every search operation (`search_project`, `search_node`,
`search_template`, `search_snapshot`, `search_drawing`) called with
neither the name key nor the identifier key raises a `ValueError`
usage error rather than returning absence. -/
theorem search_requires_key (srv : Server) (s : St) :
    search_project srv none none =
      .error (.valueError "Need to submit either name or project_id")
    ∧ search_template srv none none =
      .error (.valueError "Need to submit either name or template_id")
    ∧ (search_node s none none).1 =
      .error (.valueError "Need to submit either name or node_id")
    ∧ (search_snapshot s none none).1 =
      .error (.valueError "Need to submit either name or snapshot_id")
    ∧ (search_drawing s none none).1 =
      .error (.valueError "Need to submit either svg string or drawing_id") :=
  ⟨rfl, rfl, rfl, rfl, rfl⟩

/-- C10: supplying both the name key and the identifier key to a search
operation is not an error: the call equals the call with the identifier
dropped — the search runs on the name alone, whatever entity the
identifier would have matched — and returns the by-name lookup result. -/
theorem search_name_overrides_id (srv : Server) (s : St) (n : String)
    (ident : Option String) :
    search_project srv (some n) ident = search_project srv (some n) none
    ∧ search_project srv (some n) ident =
        .ok ((get_projects srv).find? (fun prj => prj.name == some n))
    ∧ search_template srv (some n) ident = search_template srv (some n) none
    ∧ search_template srv (some n) ident =
        .ok ((get_templates srv).find? (fun tplt => tplt.name == n))
    ∧ search_node s (some n) ident = search_node s (some n) none
    ∧ (search_node s (some n) ident).1 =
        .ok ((refresh_project s true true true true).proj.nodes.find?
          (fun nd => nd.name == n))
    ∧ search_snapshot s (some n) ident = search_snapshot s (some n) none
    ∧ (search_snapshot s (some n) ident).1 =
        .ok ((get_snapshots s.srv).find? (fun snap => snap.name == n))
    ∧ search_drawing s (some n) ident = search_drawing s (some n) none
    ∧ (search_drawing s (some n) ident).1 =
        .ok ((get_drawings s.srv).find? (fun draw => draw.svg == some n)) :=
  ⟨rfl, rfl, rfl, rfl, rfl, rfl, rfl, rfl, rfl, rfl⟩

/-- C9: when the key resolves to no existing snapshot,
`restore_snapshot` neither returns `False` nor raises the not-found
`ValueError`: it dereferences the absent (`None`) search result and
fails with an `AttributeError`, before any remote restore call is
issued. -/
theorem restore_snapshot_absent_attribute_error (s s₁ : St)
    (name snapshot_id : Option String)
    (h : search_snapshot s name snapshot_id = (.ok none, s₁)) :
    restore_snapshot s name snapshot_id =
      (.error (.attributeError "NoneType object has no attribute snapshot_id"), s₁)
    ∧ s₁.calls = s.calls := by
  have h0 := search_snapshot_state s name snapshot_id
  rw [h] at h0
  have hst : s₁ = refresh_project s true true true true := h0
  constructor
  · simp only [restore_snapshot, h]
  · rw [hst]; rfl

/-- Witness for C9: on the happy-scenario state, searching for the
snapshot `missing` resolves to absence and `restore_snapshot` raises
the attribute error with no remote call recorded. -/
theorem restore_snapshot_absent_attribute_error_witness :
    search_snapshot demoSt (some "missing") none = (.ok none, demoRef)
    ∧ restore_snapshot demoSt (some "missing") none =
        (.error (.attributeError "NoneType object has no attribute snapshot_id"), demoRef)
    ∧ demoRef.calls = demoSt.calls :=
  ⟨by decide,
   (restore_snapshot_absent_attribute_error demoSt demoRef (some "missing") none (by decide)).1,
   (restore_snapshot_absent_attribute_error demoSt demoRef (some "missing") none (by decide)).2⟩

/-- C1 counterexample: in `c1St` the existing `R1`–`R3` link occupies
the very (node, adapter, port) triple that the resolved endpoint A
(`R1 Eth0`) of the proposed `R1 Eth0`–`R2 Eth0` link carries, yet
`create_link` does not fail with `AlreadyConnected`: it succeeds and
issues the remote create call. -/
theorem create_link_occupied_port_not_rejected :
    c1St.srv.links = [linkR1R3]
    ∧ endpointMatches
        { name := "Eth0", node_id := some "n1", adapter_number := 0, port_number := 0 }
        nodeR1 eth0 = true
    ∧ _link_nodes_and_ports c1Ref "R1" "Eth0" "R2" "Eth0" =
        (.ok (nodeR1, eth0, nodeR2, eth0), c1Ref)
    ∧ (create_link c1St "R1" "Eth0" "R2" "Eth0").1 = .ok c1CreatedLink
    ∧ (create_link c1St "R1" "Eth0" "R2" "Eth0").2.calls = [Call.createLink] := by
  decide

/-- C1 (amended): the pre-create guard of `create_link` rejects only a
full endpoint-pair conflict: when the matcher finds an existing link
equal to the proposed endpoint pair (in either orientation),
`create_link` fails with the `AlreadyConnected` `ValueError` carrying
the conflicting link's identifier and issues no remote create call. -/
theorem create_link_rejects_when_pair_match_found (s s₁ : St)
    (node_a port_a node_b port_b : String)
    (na : Node) (pa : Port) (nb : Node) (pb : Port) (l : Link)
    (hres : _link_nodes_and_ports (refresh_project s true true true true)
      node_a port_a node_b port_b = (.ok (na, pa, nb, pb), s₁))
    (hfound : _search_link s₁.proj na pa nb pb = .ok (some l)) :
    create_link s node_a port_a node_b port_b =
      (.error (.valueError s!"At least one port is used, ID: {optStr l.link_id}"), s₁)
    ∧ s₁.calls = s.calls := by
  have hst := lnp_final s s₁ node_a port_a node_b port_b (.ok (na, pa, nb, pb)) hres
  exact ⟨create_link_conflict_eq s s₁ node_a port_a node_b port_b na pa nb pb l hres hfound,
    by rw [hst]; rfl⟩

/-- Witness for amended C1: on the stale state holding the
`R1 Eth0`–`R2 Eth0` link, proposing that same pair fails with the
occupied-port error naming link `lX`, with no remote call recorded. -/
theorem create_link_rejects_when_pair_match_found_witness :
    create_link c5St "R1" "Eth0" "R2" "Eth0" =
      (.error (.valueError s!"At least one port is used, ID: {optStr linkR1R2.link_id}"), c5Ref)
    ∧ c5Ref.calls = c5St.calls :=
  create_link_rejects_when_pair_match_found c5St c5Ref "R1" "Eth0" "R2" "Eth0"
    nodeR1 eth0 nodeR2 eth0 linkR1R2 (by decide) (by decide)

/-- C2: when the refreshed link set already contains a link with
exactly the proposed endpoint pair — matching on node identifier,
adapter number and port number, in either order — `create_link` fails
with the `AlreadyConnected` `ValueError` and issues no remote create
call. -/
theorem create_link_rejects_existing_pair (s s₁ : St)
    (node_a port_a node_b port_b : String)
    (na : Node) (pa : Port) (nb : Node) (pb : Port)
    (hwf : ∀ l ∈ s.srv.links, l.nodes.length ≠ 1)
    (hres : _link_nodes_and_ports (refresh_project s true true true true)
      node_a port_a node_b port_b = (.ok (na, pa, nb, pb), s₁))
    (hex : ∃ l ∈ s₁.proj.links, linkMatches l na pa nb pb = true) :
    (∃ msg, create_link s node_a port_a node_b port_b =
      (.error (.valueError msg), s₁))
    ∧ (create_link s node_a port_a node_b port_b).2.calls = s.calls := by
  have hst := lnp_final s s₁ node_a port_a node_b port_b (.ok (na, pa, nb, pb)) hres
  have hwf' : ∀ l ∈ s₁.proj.links, l.nodes.length ≠ 1 := by
    rw [hst]; exact hwf
  obtain ⟨l, hl, hm⟩ := hex
  obtain ⟨lc, hlc⟩ :
      ∃ lc, (s₁.proj.links.filter (fun l => linkMatches l na pa nb pb)).head? = some lc := by
    cases hh : (s₁.proj.links.filter (fun l => linkMatches l na pa nb pb)).head? with
    | none =>
      have hnil := List.head?_eq_none_iff.mp hh
      have hmem : l ∈ s₁.proj.links.filter (fun l => linkMatches l na pa nb pb) :=
        List.mem_filter.mpr ⟨hl, hm⟩
      rw [hnil] at hmem
      exact absurd hmem (List.not_mem_nil l)
    | some x => exact ⟨x, rfl⟩
  have hsl : _search_link s₁.proj na pa nb pb = .ok (some lc) := by
    rw [_search_link_eq_filter_head s₁.proj na pa nb pb hwf', hlc]
  have heq := create_link_conflict_eq s s₁ node_a port_a node_b port_b na pa nb pb lc hres hsl
  refine ⟨⟨s!"At least one port is used, ID: {optStr lc.link_id}", heq⟩, ?_⟩
  rw [heq, hst]; rfl

/-- Witness for C2 — the reversed-order scenario: from the happy state,
`create_link(proj, "R1", "Eth0", "R2", "Eth0")` succeeds, and on the
resulting state the reversed `create_link(proj, "R2", "Eth0", "R1",
"Eth0")` fails with `AlreadyConnected` without a second remote create
call. -/
theorem create_link_rejects_existing_pair_witness :
    (create_link demoSt "R1" "Eth0" "R2" "Eth0").1 = .ok c2Link
    ∧ (∃ msg, create_link c2St "R2" "Eth0" "R1" "Eth0" =
        (.error (.valueError msg), c2Ref))
    ∧ (create_link c2St "R2" "Eth0" "R1" "Eth0").2.calls = c2St.calls := by
  refine ⟨by decide, ?_, ?_⟩
  · exact (create_link_rejects_existing_pair c2St c2Ref "R2" "Eth0" "R1" "Eth0"
      nodeR2 eth0 nodeR1 eth0 (by decide) (by decide) ⟨c2Link, by decide, by decide⟩).1
  · exact (create_link_rejects_existing_pair c2St c2Ref "R2" "Eth0" "R1" "Eth0"
      nodeR2 eth0 nodeR1 eth0 (by decide) (by decide) ⟨c2Link, by decide, by decide⟩).2

/-- C4: when the endpoints resolve but no existing link matches the
pair, `delete_link` returns successfully as a silent no-op — no
`NotFound` error, no remote delete call — and the refreshed link set it
leaves behind contains no link with that endpoint pair. -/
theorem delete_link_noop_when_absent (s s₁ : St)
    (node_a port_a node_b port_b : String)
    (hwf : ∀ l ∈ s.srv.links, l.nodes.length ≠ 1)
    (hs : search_link s node_a port_a node_b port_b = (.ok none, s₁)) :
    delete_link s node_a port_a node_b port_b = (.ok (), s₁)
    ∧ s₁.calls = s.calls
    ∧ ∀ na pa nb pb,
        _link_nodes_and_ports (refresh_project s true true true true)
          node_a port_a node_b port_b = (.ok (na, pa, nb, pb), s₁) →
        ∀ l ∈ s₁.proj.links, linkMatches l na pa nb pb = false := by
  have h0 := search_link_state s node_a port_a node_b port_b
  rw [hs] at h0
  have hst : s₁ = refresh_project s true true true true := h0
  refine ⟨?_, ?_, ?_⟩
  · simp only [delete_link, hs]
  · rw [hst]; rfl
  · intro na pa nb pb hres l hl
    have hsl : _search_link s₁.proj na pa nb pb = .ok none := by
      simp only [search_link] at hs
      rw [hres] at hs
      have := congrArg Prod.fst hs
      simpa using this
    have hwf' : ∀ l ∈ s₁.proj.links, l.nodes.length ≠ 1 := by
      rw [hst]; exact hwf
    rw [_search_link_eq_filter_head s₁.proj na pa nb pb hwf'] at hsl
    have h1 : (s₁.proj.links.filter (fun l => linkMatches l na pa nb pb)).head? = none := by
      simpa using hsl
    have h2 : s₁.proj.links.filter (fun l => linkMatches l na pa nb pb) = [] :=
      List.head?_eq_none_iff.mp h1
    have h3 := List.filter_eq_nil_iff.mp h2 l hl
    simpa using h3

/-- Witness for C4: on the happy state, `R1 Eth1`–`R2 Eth0` resolves
but matches no link, and `delete_link` is a successful no-op without a
remote delete call. -/
theorem delete_link_noop_when_absent_witness :
    delete_link demoSt "R1" "Eth1" "R2" "Eth0" = (.ok (), demoRef)
    ∧ demoRef.calls = demoSt.calls
    ∧ ∀ na pa nb pb,
        _link_nodes_and_ports (refresh_project demoSt true true true true)
          "R1" "Eth1" "R2" "Eth0" = (.ok (na, pa, nb, pb), demoRef) →
        ∀ l ∈ demoRef.proj.links, linkMatches l na pa nb pb = false :=
  delete_link_noop_when_absent demoSt demoRef "R1" "Eth1" "R2" "Eth0"
    (by decide) (by decide)

/-- `find?` returns the element after a prefix of non-matches. -/
theorem find?_first {α : Type} (p : α → Bool) (pre : List α) (x : α) (post : List α)
    (hx : p x = true) (hpre : ∀ y ∈ pre, p y = false) :
    (pre ++ x :: post).find? p = some x := by
  induction pre with
  | nil =>
    rw [List.nil_append]
    exact List.find?_cons_of_pos post hx
  | cons a pre ih =>
    have ha : p a = false := hpre a (List.mem_cons_self a pre)
    rw [List.cons_append, List.find?_cons_of_neg _ (by simp [ha])]
    exact ih (fun y hy => hpre y (List.mem_cons_of_mem a hy))

/-- `find?` returns absence when nothing matches. -/
theorem find?_none_of_all_false {α : Type} (p : α → Bool) (l : List α)
    (h : ∀ y ∈ l, p y = false) : l.find? p = none :=
  List.find?_eq_none.mpr (fun y hy => by simp [h y hy])

/-- Erasing a member of a list whose mapped identifiers are distinct
leaves no element carrying that identifier. -/
theorem erase_no_node_id (l : List Node) (nd : Node)
    (hnodup : (l.map Node.node_id).Nodup) (hmem : nd ∈ l) :
    ∀ z ∈ l.erase nd, z.node_id ≠ nd.node_id := by
  obtain ⟨l₁, l₂, hnl, hsplit, herase⟩ := List.exists_erase_eq hmem
  rw [herase]
  rw [hsplit, List.map_append, List.map_cons, List.nodup_append] at hnodup
  obtain ⟨h1, h2, hdisj⟩ := hnodup
  rw [List.nodup_cons] at h2
  obtain ⟨hnotin, h3⟩ := h2
  intro z hzmem heq
  rcases List.mem_append.mp hzmem with hz1 | hz2
  · exact hdisj (List.mem_map_of_mem Node.node_id hz1)
      (by rw [heq]; exact List.mem_cons_self _ _)
  · exact hnotin (heq ▸ List.mem_map_of_mem Node.node_id hz2)

/-- C7: every resolver returns the first element of the fetched
listing whose key attribute equals the query — duplicates included, no
error and no deduplication — and absence when no element matches; this
holds for projects, templates, nodes, snapshots and drawings (the
latter keyed by svg string). -/
theorem search_first_match_wins (srv : Server) (s : St) (n : String) :
    (∀ pre x post, srv.projects = pre ++ x :: post →
        (x.name == some n) = true → (∀ y ∈ pre, (y.name == some n) = false) →
        search_project srv (some n) none = .ok (some x))
    ∧ ((∀ y ∈ srv.projects, (y.name == some n) = false) →
        search_project srv (some n) none = .ok none)
    ∧ (∀ pre x post, srv.templates = pre ++ x :: post →
        (x.name == n) = true → (∀ y ∈ pre, (y.name == n) = false) →
        search_template srv (some n) none = .ok (some x))
    ∧ ((∀ y ∈ srv.templates, (y.name == n) = false) →
        search_template srv (some n) none = .ok none)
    ∧ (∀ pre x post, s.srv.nodes = pre ++ x :: post →
        (x.name == n) = true → (∀ y ∈ pre, (y.name == n) = false) →
        (search_node s (some n) none).1 = .ok (some x))
    ∧ ((∀ y ∈ s.srv.nodes, (y.name == n) = false) →
        (search_node s (some n) none).1 = .ok none)
    ∧ (∀ pre x post, s.srv.snapshots = pre ++ x :: post →
        (x.name == n) = true → (∀ y ∈ pre, (y.name == n) = false) →
        (search_snapshot s (some n) none).1 = .ok (some x))
    ∧ ((∀ y ∈ s.srv.snapshots, (y.name == n) = false) →
        (search_snapshot s (some n) none).1 = .ok none)
    ∧ (∀ pre x post, s.srv.drawings = pre ++ x :: post →
        (x.svg == some n) = true → (∀ y ∈ pre, (y.svg == some n) = false) →
        (search_drawing s (some n) none).1 = .ok (some x))
    ∧ ((∀ y ∈ s.srv.drawings, (y.svg == some n) = false) →
        (search_drawing s (some n) none).1 = .ok none) := by
  refine ⟨?_, ?_, ?_, ?_, ?_, ?_, ?_, ?_, ?_, ?_⟩
  · intro pre x post hsplit hx hpre
    have he : search_project srv (some n) none =
        .ok (srv.projects.find? (fun prj => prj.name == some n)) := rfl
    rw [he, hsplit, find?_first _ pre x post hx hpre]
  · intro hall
    have he : search_project srv (some n) none =
        .ok (srv.projects.find? (fun prj => prj.name == some n)) := rfl
    rw [he, find?_none_of_all_false _ _ hall]
  · intro pre x post hsplit hx hpre
    have he : search_template srv (some n) none =
        .ok (srv.templates.find? (fun tplt => tplt.name == n)) := rfl
    rw [he, hsplit, find?_first _ pre x post hx hpre]
  · intro hall
    have he : search_template srv (some n) none =
        .ok (srv.templates.find? (fun tplt => tplt.name == n)) := rfl
    rw [he, find?_none_of_all_false _ _ hall]
  · intro pre x post hsplit hx hpre
    have he : (search_node s (some n) none).1 =
        .ok (s.srv.nodes.find? (fun nd => nd.name == n)) := rfl
    rw [he, hsplit, find?_first _ pre x post hx hpre]
  · intro hall
    have he : (search_node s (some n) none).1 =
        .ok (s.srv.nodes.find? (fun nd => nd.name == n)) := rfl
    rw [he, find?_none_of_all_false _ _ hall]
  · intro pre x post hsplit hx hpre
    have he : (search_snapshot s (some n) none).1 =
        .ok (s.srv.snapshots.find? (fun snap => snap.name == n)) := rfl
    rw [he, hsplit, find?_first _ pre x post hx hpre]
  · intro hall
    have he : (search_snapshot s (some n) none).1 =
        .ok (s.srv.snapshots.find? (fun snap => snap.name == n)) := rfl
    rw [he, find?_none_of_all_false _ _ hall]
  · intro pre x post hsplit hx hpre
    have he : (search_drawing s (some n) none).1 =
        .ok (s.srv.drawings.find? (fun draw => draw.svg == some n)) := rfl
    rw [he, hsplit, find?_first _ pre x post hx hpre]
  · intro hall
    have he : (search_drawing s (some n) none).1 =
        .ok (s.srv.drawings.find? (fun draw => draw.svg == some n)) := rfl
    rw [he, find?_none_of_all_false _ _ hall]

/-- Witness for C7: on a server holding duplicate names in every
collection, each resolver returns the first duplicate in fetched order,
and returns absence for an unmatched key. -/
theorem search_first_match_wins_witness :
    search_project dupSrv (some "lab") none = .ok (some projLab1)
    ∧ search_project dupSrv (some "nolab") none = .ok none
    ∧ search_template dupSrv (some "tt") none = .ok (some tplTT1)
    ∧ search_template dupSrv (some "not") none = .ok none
    ∧ (search_node dupSt (some "nn") none).1 = .ok (some nodeNN1)
    ∧ (search_node dupSt (some "nx") none).1 = .ok none
    ∧ (search_snapshot dupSt (some "ss") none).1 = .ok (some snapSS1)
    ∧ (search_snapshot dupSt (some "sx") none).1 = .ok none
    ∧ (search_drawing dupSt (some "dd") none).1 = .ok (some drawDD1)
    ∧ (search_drawing dupSt (some "dx") none).1 = .ok none := by
  refine ⟨?_, ?_, ?_, ?_, ?_, ?_, ?_, ?_, ?_, ?_⟩
  · exact (search_first_match_wins dupSrv dupSt "lab").1 [projOther] projLab1 [projLab2]
      (by decide) (by decide) (by decide)
  · exact (search_first_match_wins dupSrv dupSt "nolab").2.1 (by decide)
  · exact (search_first_match_wins dupSrv dupSt "tt").2.2.1
      [{ name := "t0", template_id := some "t0" }] tplTT1
      [{ name := "tt", template_id := some "t2" }] (by decide) (by decide) (by decide)
  · exact (search_first_match_wins dupSrv dupSt "not").2.2.2.1 (by decide)
  · exact (search_first_match_wins dupSrv dupSt "nn").2.2.2.2.1 [nodeR1] nodeNN1 [nodeNN2]
      (by decide) (by decide) (by decide)
  · exact (search_first_match_wins dupSrv dupSt "nx").2.2.2.2.2.1 (by decide)
  · exact (search_first_match_wins dupSrv dupSt "ss").2.2.2.2.2.2.1
      [{ name := "s0", snapshot_id := some "s0" }] snapSS1
      [{ name := "ss", snapshot_id := some "s2" }] (by decide) (by decide) (by decide)
  · exact (search_first_match_wins dupSrv dupSt "sx").2.2.2.2.2.2.2.1 (by decide)
  · exact (search_first_match_wins dupSrv dupSt "dd").2.2.2.2.2.2.2.2.1
      [{ svg := some "d0", drawing_id := some "d0" }] drawDD1
      [{ svg := some "dd", drawing_id := some "d2" }] (by decide) (by decide) (by decide)
  · exact (search_first_match_wins dupSrv dupSt "dx").2.2.2.2.2.2.2.2.2 (by decide)

/-- C8: after a successful `create_node` the returned node is a member
of the project's node collection; after a successful `delete_node` of a
resolved node, no node with its identifier remains in the collection
(given server listings with distinct identifiers). -/
theorem create_delete_node_membership :
    (∀ (s : St) (nm tpl : String) (x y : Int) (nd : Node) (s' : St),
        create_node s nm tpl x y = (.ok nd, s') → nd ∈ s'.proj.nodes)
    ∧ (∀ (s : St) (name node_id : Option String) (nd : Node) (s₁ s' : St),
        (s.srv.nodes.map Node.node_id).Nodup →
        search_node s name node_id = (.ok (some nd), s₁) →
        delete_node s name node_id = (.ok (), s') →
        ∀ z ∈ s'.proj.nodes, z.node_id ≠ nd.node_id) := by
  constructor
  · intro s nm tpl x y nd s' h
    simp only [create_node] at h
    split at h
    · simp at h
    · simp at h
    · split at h
      · simp at h
      · simp at h
      · simp only [node_create] at h
        split at h
        · simp at h
        · simp only [Prod.mk.injEq] at h
          obtain ⟨h1, h2⟩ := h
          injection h1 with h1'
          rw [← h2, ← h1']
          exact List.mem_cons_self _ _
  · intro s name node_id nd s₁ s' hnodup hsearch hdel z hz heq
    have h0 := search_node_state s name node_id
    rw [hsearch] at h0
    have hst : s₁ = refresh_project s true true true true := h0
    have hmem : nd ∈ s₁.proj.nodes := by
      rw [hst]
      cases name with
      | some nm =>
        have h1 : Except.ok ((refresh_project s true true true true).proj.nodes.find?
            (fun x => x.name == nm)) = Except.ok (some nd) :=
          congrArg Prod.fst hsearch
        injection h1 with h1'
        exact List.mem_of_find?_eq_some h1'
      | none =>
        cases node_id with
        | some nid =>
          have h1 : Except.ok ((get_nodes (refresh_project s true true true true).srv).find?
              (fun x => x.node_id == some nid)) = Except.ok (some nd) :=
            congrArg Prod.fst hsearch
          injection h1 with h1'
          exact List.mem_of_find?_eq_some h1'
        | none =>
          have h1 : Except.error (PyError.valueError "Need to submit either name or node_id")
              = Except.ok (some nd) := congrArg Prod.fst hsearch
          exact Except.noConfusion h1
    have hnodup' : (s₁.proj.nodes.map Node.node_id).Nodup := by
      rw [hst]; exact hnodup
    simp only [delete_node] at hdel
    split at hdel <;> rename_i heqs
    · rw [hsearch] at heqs; simp at heqs
    · rw [hsearch] at heqs; simp at heqs
    · rw [hsearch] at heqs
      simp only [Prod.mk.injEq] at heqs
      obtain ⟨heq1, heq2⟩ := heqs
      injection heq1 with heq1'
      injection heq1' with heq1''
      subst heq2
      rw [← heq1''] at hdel
      split at hdel
      next e s₂ heqd => simp at hdel
      next u s₂ heqd =>
        have hdp : s₂.proj = s₁.proj := by
          have h3 := node_delete_proj s₁ nd
          rw [heqd] at h3
          exact h3
        split at hdel
        · simp only [Prod.mk.injEq] at hdel
          obtain ⟨_, h2⟩ := hdel
          rw [← h2] at hz
          have hz' : z ∈ s₁.proj.nodes.erase nd := by
            have : s₂.proj.nodes.erase nd = s₁.proj.nodes.erase nd := by rw [hdp]
            rw [← this]
            exact hz
          exact erase_no_node_id s₁.proj.nodes nd hnodup' hmem z hz' heq
        · simp at hdel

/-- Witness for C8: on the happy state, creating node `R9` from
template `t1` puts the returned node in the collection, and deleting
node `R2` removes every node with its identifier. -/
theorem create_delete_node_membership_witness :
    create_node demoSt "R9" "t1" 0 0 = (.ok c8Node, c8CreateSt)
    ∧ c8Node ∈ c8CreateSt.proj.nodes
    ∧ (demoSt.srv.nodes.map Node.node_id).Nodup
    ∧ search_node demoSt (some "R2") none = (.ok (some nodeR2), demoRef)
    ∧ delete_node demoSt (some "R2") none = (.ok (), c8DeleteSt)
    ∧ ∀ z ∈ c8DeleteSt.proj.nodes, z.node_id ≠ nodeR2.node_id := by
  refine ⟨by decide, ?_, by decide, by decide, by decide, ?_⟩
  · exact create_delete_node_membership.1 demoSt "R9" "t1" 0 0 c8Node c8CreateSt (by decide)
  · exact create_delete_node_membership.2 demoSt (some "R2") none nodeR2 demoRef c8DeleteSt
      (by decide) (by decide) (by decide)

/-! ### Error-path state lemmas -/

/-- A failed `create_link` finishes in exactly the refreshed state. -/
theorem create_link_error_state (s s' : St) (a pa b pb : String) (e : PyError)
    (h : create_link s a pa b pb = (.error e, s')) :
    s' = refresh_project s true true true true := by
  simp only [create_link] at h
  split at h
  next e0 s₁ heq =>
    have hst : s₁ = refresh_project s true true true true :=
      lnp_final s s₁ a pa b pb (.error e0) heq
    simp only [Prod.mk.injEq] at h
    rw [← h.2]; exact hst
  next na' pa' nb' pb' s₁ heq =>
    have hst : s₁ = refresh_project s true true true true :=
      lnp_final s s₁ a pa b pb (.ok (na', pa', nb', pb')) heq
    split at h
    next e0 heqs =>
      simp only [Prod.mk.injEq] at h
      rw [← h.2]; exact hst
    next l heqs =>
      simp only [Prod.mk.injEq] at h
      rw [← h.2]; exact hst
    next heqs =>
      split at h
      next e0 s₂ heqc =>
        have hs2 : s₂ = s₁ := by
          unfold link_create at heqc
          split at heqc
          · simp only [Prod.mk.injEq] at heqc
            exact heqc.2.symm
          · simp at heqc
        simp only [Prod.mk.injEq] at h
        rw [← h.2, hs2]; exact hst
      next created s₂ heqc =>
        simp at h

/-- A failed `delete_link` leaves the refreshed collections. -/
theorem delete_link_error_proj (s s' : St) (a pa b pb : String) (e : PyError)
    (h : delete_link s a pa b pb = (.error e, s')) :
    s'.proj = (refresh_project s true true true true).proj := by
  simp only [delete_link] at h
  split at h
  next e0 s₁ heq =>
    have hst : s₁ = refresh_project s true true true true := by
      have h3 := search_link_state s a pa b pb
      rw [heq] at h3
      exact h3
    simp only [Prod.mk.injEq] at h
    rw [← h.2, hst]
  next s₁ heq => simp at h
  next l s₁ heq =>
    have hst : s₁ = refresh_project s true true true true := by
      have h3 := search_link_state s a pa b pb
      rw [heq] at h3
      exact h3
    split at h
    next e0 s₂ heqd =>
      have hdp : s₂.proj = s₁.proj := by
        have h3 := link_delete_proj s₁ l
        rw [heqd] at h3
        exact h3
      simp only [Prod.mk.injEq] at h
      rw [← h.2, hdp, hst]
    next u s₂ heqd =>
      have hdp : s₂.proj = s₁.proj := by
        have h3 := link_delete_proj s₁ l
        rw [heqd] at h3
        exact h3
      split at h
      · simp at h
      · simp only [Prod.mk.injEq] at h
        rw [← h.2, hdp, hst]

/-- A failed `create_node` leaves the refreshed collections. -/
theorem create_node_error_proj (s s' : St) (nm tpl : String) (x y : Int) (e : PyError)
    (h : create_node s nm tpl x y = (.error e, s')) :
    s'.proj = (refresh_project s true true true true).proj := by
  simp only [create_node] at h
  split at h
  next e0 s₁ heq =>
    have hst : s₁ = refresh_project s true true true true := by
      have h3 := search_node_state s (some nm) none
      rw [heq] at h3
      exact h3
    simp only [Prod.mk.injEq] at h
    rw [← h.2, hst]
  next nd0 s₁ heq =>
    have hst : s₁ = refresh_project s true true true true := by
      have h3 := search_node_state s (some nm) none
      rw [heq] at h3
      exact h3
    simp only [Prod.mk.injEq] at h
    rw [← h.2, hst]
  next s₁ heq =>
    have hst : s₁ = refresh_project s true true true true := by
      have h3 := search_node_state s (some nm) none
      rw [heq] at h3
      exact h3
    split at h
    next e0 heqt =>
      simp only [Prod.mk.injEq] at h
      rw [← h.2, hst]
    next heqt =>
      simp only [Prod.mk.injEq] at h
      rw [← h.2, hst]
    next tq heqt =>
      split at h
      next e0 s₂ heqc =>
        have hdp : s₂.proj = s₁.proj := by
          have h3 := node_create_proj s₁
            { name := nm, node_id := none, template := some tq.name,
              template_id := tq.template_id, x := x, y := y, ports := [] }
          rw [heqc] at h3
          exact h3
        simp only [Prod.mk.injEq] at h
        rw [← h.2, hdp, hst]
      next created s₂ heqc =>
        simp at h

/-- A failed `delete_node` leaves the refreshed collections. -/
theorem delete_node_error_proj (s s' : St) (name node_id : Option String) (e : PyError)
    (h : delete_node s name node_id = (.error e, s')) :
    s'.proj = (refresh_project s true true true true).proj := by
  simp only [delete_node] at h
  split at h
  next e0 s₁ heq =>
    have hst : s₁ = refresh_project s true true true true := by
      have h3 := search_node_state s name node_id
      rw [heq] at h3
      exact h3
    simp only [Prod.mk.injEq] at h
    rw [← h.2, hst]
  next s₁ heq =>
    have hst : s₁ = refresh_project s true true true true := by
      have h3 := search_node_state s name node_id
      rw [heq] at h3
      exact h3
    simp only [Prod.mk.injEq] at h
    rw [← h.2, hst]
  next nd s₁ heq =>
    have hst : s₁ = refresh_project s true true true true := by
      have h3 := search_node_state s name node_id
      rw [heq] at h3
      exact h3
    split at h
    next e0 s₂ heqd =>
      have hdp : s₂.proj = s₁.proj := by
        have h3 := node_delete_proj s₁ nd
        rw [heqd] at h3
        exact h3
      simp only [Prod.mk.injEq] at h
      rw [← h.2, hdp, hst]
    next u s₂ heqd =>
      have hdp : s₂.proj = s₁.proj := by
        have h3 := node_delete_proj s₁ nd
        rw [heqd] at h3
        exact h3
      split at h
      · simp at h
      · simp only [Prod.mk.injEq] at h
        rw [← h.2, hdp, hst]

/-- A failed `create_snapshot` leaves the refreshed collections. -/
theorem create_snapshot_error_proj (s s' : St) (nm : String) (e : PyError)
    (h : create_snapshot s nm = (.error e, s')) :
    s'.proj = (refresh_project s true true true true).proj := by
  simp only [create_snapshot] at h
  split at h
  next e0 s₁ heq =>
    have hst : s₁ = refresh_project s true true true true := by
      have h3 := search_snapshot_state s (some nm) none
      rw [heq] at h3
      exact h3
    simp only [Prod.mk.injEq] at h
    rw [← h.2, hst]
  next snap s₁ heq =>
    have hst : s₁ = refresh_project s true true true true := by
      have h3 := search_snapshot_state s (some nm) none
      rw [heq] at h3
      exact h3
    simp only [Prod.mk.injEq] at h
    rw [← h.2, hst]
  next s₁ heq =>
    have hst : s₁ = refresh_project s true true true true := by
      have h3 := search_snapshot_state s (some nm) none
      rw [heq] at h3
      exact h3
    split at h
    next e0 s₂ heqc =>
      have hdp : s₂.proj = s₁.proj := by
        have h3 := snapshot_create_proj s₁ { name := nm, snapshot_id := none }
        rw [heqc] at h3
        exact h3
      simp only [Prod.mk.injEq] at h
      rw [← h.2, hdp, hst]
    next created s₂ heqc =>
      simp at h

/-- A failed `delete_snapshot` leaves the refreshed collections. -/
theorem delete_snapshot_error_proj (s s' : St) (name snapshot_id : Option String)
    (e : PyError) (h : delete_snapshot s name snapshot_id = (.error e, s')) :
    s'.proj = (refresh_project s true true true true).proj := by
  simp only [delete_snapshot] at h
  split at h
  next e0 s₁ heq =>
    have hst : s₁ = refresh_project s true true true true := by
      have h3 := search_snapshot_state s name snapshot_id
      rw [heq] at h3
      exact h3
    simp only [Prod.mk.injEq] at h
    rw [← h.2, hst]
  next s₁ heq =>
    have hst : s₁ = refresh_project s true true true true := by
      have h3 := search_snapshot_state s name snapshot_id
      rw [heq] at h3
      exact h3
    simp only [Prod.mk.injEq] at h
    rw [← h.2, hst]
  next snap s₁ heq =>
    have hst : s₁ = refresh_project s true true true true := by
      have h3 := search_snapshot_state s name snapshot_id
      rw [heq] at h3
      exact h3
    split at h
    next e0 s₂ heqd =>
      have hdp : s₂.proj = s₁.proj := by
        have h3 := snapshot_delete_proj s₁ snap
        rw [heqd] at h3
        exact h3
      simp only [Prod.mk.injEq] at h
      rw [← h.2, hdp, hst]
    next u s₂ heqd =>
      have hdp : s₂.proj = s₁.proj := by
        have h3 := snapshot_delete_proj s₁ snap
        rw [heqd] at h3
        exact h3
      split at h
      · simp at h
      · simp only [Prod.mk.injEq] at h
        rw [← h.2, hdp, hst]

/-- A failed `create_drawing` leaves the refreshed collections. -/
theorem create_drawing_error_proj (s s' : St) (svg : String) (e : PyError)
    (h : create_drawing s svg = (.error e, s')) :
    s'.proj = (refresh_project s true true true true).proj := by
  simp only [create_drawing] at h
  split at h
  next e0 s₁ heq =>
    have hst : s₁ = refresh_project s true true true true := by
      have h3 := search_drawing_state s (some svg) none
      rw [heq] at h3
      exact h3
    simp only [Prod.mk.injEq] at h
    rw [← h.2, hst]
  next draw s₁ heq =>
    have hst : s₁ = refresh_project s true true true true := by
      have h3 := search_drawing_state s (some svg) none
      rw [heq] at h3
      exact h3
    simp only [Prod.mk.injEq] at h
    rw [← h.2, hst]
  next s₁ heq =>
    have hst : s₁ = refresh_project s true true true true := by
      have h3 := search_drawing_state s (some svg) none
      rw [heq] at h3
      exact h3
    split at h
    next e0 s₂ heqc =>
      have hdp : s₂.proj = s₁.proj := by
        have h3 := drawing_create_proj s₁ { svg := some svg, drawing_id := none }
        rw [heqc] at h3
        exact h3
      simp only [Prod.mk.injEq] at h
      rw [← h.2, hdp, hst]
    next created s₂ heqc =>
      simp at h

/-- A failed `delete_drawing` leaves the refreshed collections. -/
theorem delete_drawing_error_proj (s s' : St) (svg drawing_id : Option String)
    (e : PyError) (h : delete_drawing s svg drawing_id = (.error e, s')) :
    s'.proj = (refresh_project s true true true true).proj := by
  simp only [delete_drawing] at h
  split at h
  next e0 s₁ heq =>
    have hst : s₁ = refresh_project s true true true true := by
      have h3 := search_drawing_state s svg drawing_id
      rw [heq] at h3
      exact h3
    simp only [Prod.mk.injEq] at h
    rw [← h.2, hst]
  next s₁ heq =>
    have hst : s₁ = refresh_project s true true true true := by
      have h3 := search_drawing_state s svg drawing_id
      rw [heq] at h3
      exact h3
    simp only [Prod.mk.injEq] at h
    rw [← h.2, hst]
  next draw s₁ heq =>
    have hst : s₁ = refresh_project s true true true true := by
      have h3 := search_drawing_state s svg drawing_id
      rw [heq] at h3
      exact h3
    split at h
    next e0 s₂ heqd =>
      have hdp : s₂.proj = s₁.proj := by
        have h3 := drawing_delete_proj s₁ draw
        rw [heqd] at h3
        exact h3
      simp only [Prod.mk.injEq] at h
      rw [← h.2, hdp, hst]
    next u s₂ heqd =>
      have hdp : s₂.proj = s₁.proj := by
        have h3 := drawing_delete_proj s₁ draw
        rw [heqd] at h3
        exact h3
      split at h
      · simp at h
      · simp only [Prod.mk.injEq] at h
        rw [← h.2, hdp, hst]

/-- C5 counterexample: on the stale state `c5St` the local link
collection is empty; `create_link` fails with `AlreadyConnected`, yet
the local link collection is no longer what it was before the call —
the initial refresh already replaced it with the server listing. -/
theorem create_link_failure_mutates_stale_collections :
    c5St.proj.links = []
    ∧ (create_link c5St "R1" "Eth0" "R2" "Eth0").1 =
        .error (.valueError "At least one port is used, ID: lX")
    ∧ (create_link c5St "R1" "Eth0" "R2" "Eth0").2.proj.links ≠ c5St.proj.links := by
  decide

/-- C5 (amended): a failed create or delete leaves the project's
in-memory collections exactly in the refreshed state — equal to the
server listings fetched by the operation's initial refresh; the
failure itself adds or removes nothing locally (the collections equal
those before the call only when they were already fresh). -/
theorem failed_mutation_leaves_refreshed_state :
    (∀ (s s' : St) (a pa b pb : String) (e : PyError),
        create_link s a pa b pb = (.error e, s') →
        s'.proj = (refresh_project s true true true true).proj)
    ∧ (∀ (s s' : St) (a pa b pb : String) (e : PyError),
        delete_link s a pa b pb = (.error e, s') →
        s'.proj = (refresh_project s true true true true).proj)
    ∧ (∀ (s s' : St) (nm tpl : String) (x y : Int) (e : PyError),
        create_node s nm tpl x y = (.error e, s') →
        s'.proj = (refresh_project s true true true true).proj)
    ∧ (∀ (s s' : St) (name node_id : Option String) (e : PyError),
        delete_node s name node_id = (.error e, s') →
        s'.proj = (refresh_project s true true true true).proj)
    ∧ (∀ (s s' : St) (nm : String) (e : PyError),
        create_snapshot s nm = (.error e, s') →
        s'.proj = (refresh_project s true true true true).proj)
    ∧ (∀ (s s' : St) (name snapshot_id : Option String) (e : PyError),
        delete_snapshot s name snapshot_id = (.error e, s') →
        s'.proj = (refresh_project s true true true true).proj)
    ∧ (∀ (s s' : St) (svg : String) (e : PyError),
        create_drawing s svg = (.error e, s') →
        s'.proj = (refresh_project s true true true true).proj)
    ∧ (∀ (s s' : St) (svg drawing_id : Option String) (e : PyError),
        delete_drawing s svg drawing_id = (.error e, s') →
        s'.proj = (refresh_project s true true true true).proj) :=
  ⟨fun s s' a pa b pb e h => by rw [create_link_error_state s s' a pa b pb e h],
   fun s s' a pa b pb e h => delete_link_error_proj s s' a pa b pb e h,
   fun s s' nm tpl x y e h => create_node_error_proj s s' nm tpl x y e h,
   fun s s' name node_id e h => delete_node_error_proj s s' name node_id e h,
   fun s s' nm e h => create_snapshot_error_proj s s' nm e h,
   fun s s' name snapshot_id e h => delete_snapshot_error_proj s s' name snapshot_id e h,
   fun s s' svg e h => create_drawing_error_proj s s' svg e h,
   fun s s' svg drawing_id e h => delete_drawing_error_proj s s' svg drawing_id e h⟩

/-- Witness for amended C5: one concrete failing run per operation,
each finishing with the refreshed collections. -/
theorem failed_mutation_leaves_refreshed_state_witness :
    create_link c5St "R1" "Eth0" "R2" "Eth0" =
      (.error (.valueError "At least one port is used, ID: lX"), c5Ref)
    ∧ c5Ref.proj = (refresh_project c5St true true true true).proj
    ∧ delete_link demoSt "R1" "Eth0" "RX" "Eth0" =
      (.error (.valueError "node_b: RX not found"), demoRef)
    ∧ demoRef.proj = (refresh_project demoSt true true true true).proj
    ∧ create_node demoSt "R9" "tX" 0 0 =
      (.error (.valueError "Template not found: tX"), demoRef)
    ∧ delete_node demoSt (some "RX") none =
      (.error (.valueError "Node not found"), demoRef)
    ∧ create_snapshot demoSt "snap1" =
      (.error (.valueError "Snapshot with same name already exists: snap1"), demoRef)
    ∧ delete_snapshot demoSt (some "nope") none =
      (.error (.valueError "Snapshot not found"), demoRef)
    ∧ create_drawing demoSt "<svg a>" =
      (.error (.valueError "Drawing with same svg already exists: d1"), demoRef)
    ∧ delete_drawing demoSt (some "nope") none =
      (.error (.valueError "Snapshot not found"), demoRef)
    ∧ demoRef.proj = (refresh_project demoSt true true true true).proj := by
  refine ⟨by decide, ?_, by decide, ?_, by decide, by decide, by decide, by decide,
    by decide, by decide, ?_⟩
  · exact failed_mutation_leaves_refreshed_state.1 c5St c5Ref "R1" "Eth0" "R2" "Eth0"
      (.valueError "At least one port is used, ID: lX") (by decide)
  · exact failed_mutation_leaves_refreshed_state.2.1 demoSt demoRef "R1" "Eth0" "RX" "Eth0"
      (.valueError "node_b: RX not found") (by decide)
  · exact failed_mutation_leaves_refreshed_state.2.2.2.2.2.2.2 demoSt demoRef
      (some "nope") none (.valueError "Snapshot not found") (by decide)

end Gns3
